import Mathlib

/-!
Verification development for the perf-wizard Diagnostic Engine.

The definitions below are a shallow embedding of the engine found in
`lib/AdvancedCodeAnalyzer.js` and of the aggregation layer of the ultimate
CLI entry point (`UltimatePerformanceAnalyzer`).  Syntax trees produced by
the external parser are modelled by the inductive type `JSNode`, covering
exactly the node kinds the detectors consume; a parse outcome is an
`Except String JSNode`, since the engine treats parsing as an external,
fallible step.  JavaScript numbers that stay integral are modelled by
`Int`/`Nat`.
-/

namespace PerfWizard

/-- Decides whether `sub` is an initial segment of `s` (character lists). -/
def listStartsWith : List Char → List Char → Bool
  | _, [] => true
  | [], _ :: _ => false
  | c :: cs, d :: ds => c = d && listStartsWith cs ds

/-- Decides whether `sub` occurs contiguously inside `s` (character lists). -/
def listContainsSeg : List Char → List Char → Bool
  | [], sub => sub.isEmpty
  | c :: rest, sub => listStartsWith (c :: rest) sub || listContainsSeg rest sub

/-- Models JavaScript `String.prototype.includes`. -/
def strContains (s sub : String) : Bool :=
  listContainsSeg s.toList sub.toList

/-- Counts the positions of `s` at which `pat` starts.  This models counting
the matches of a `/g` regular expression whose pattern is the fixed literal
`pat` (the source patterns cannot overlap themselves, so position counting
agrees with the non-overlapping scan of a JavaScript global regex). -/
def countSegAux : List Char → List Char → Nat
  | [], _ => 0
  | c :: rest, pat =>
      (if listStartsWith (c :: rest) pat then 1 else 0) + countSegAux rest pat

/-- Counts occurrences of the literal pattern `pat` inside `s`. -/
def countSeg (s pat : String) : Nat :=
  countSegAux s.toList pat.toList

/-- Splits a character list at newline characters; models `split('\n')`. -/
def splitLinesAux : List Char → List (List Char)
  | [] => [[]]
  | d :: rest =>
      match splitLinesAux rest with
      | [] => [[]]
      | l :: ls => if d = '\n' then [] :: l :: ls else (d :: l) :: ls

/-- Models JavaScript `content.split('\n')`. -/
def splitLines (s : String) : List String :=
  (splitLinesAux s.toList).map (fun l => String.mk l)

/-- Whitespace test used by the lexical metrics (ASCII approximation of the
JavaScript `\s` class and of the characters removed by `trim`). -/
def isWsChar (c : Char) : Bool :=
  c = ' ' || c = '\t' || c = '\r' || c = '\n'

/-- Models JavaScript `String.prototype.trim` on a character list. -/
def trimChars (l : List Char) : List Char :=
  ((l.dropWhile isWsChar).reverse.dropWhile isWsChar).reverse

/-- Collapses every maximal whitespace run to a single space; the flag
records whether the previous character was whitespace.  Models the
`replace(/\s+/g, ' ')` normalisation step of the duplicate-line scan. -/
def collapseWsAux : Bool → List Char → List Char
  | _, [] => []
  | prevWs, c :: rest =>
      if isWsChar c then
        if prevWs then collapseWsAux true rest
        else ' ' :: collapseWsAux true rest
      else c :: collapseWsAux false rest

/-- Normalised form of a source line: `line.trim().replace(/\s+/g, ' ')`. -/
def normalizeLine (s : String) : String :=
  String.mk (collapseWsAux false (trimChars s.toList))

/-- Syntax-tree model.  One constructor per node kind actually consumed by
the detectors: loops (`for`, `while`, `do-while`), blocks, expression
statements, call expressions with a member callee (`obj.prop(args)`) or an
identifier callee (`f(args)`), identifiers, string literals, import
declarations and function declarations (the scope boundaries).  `forStmt`
keeps its header expressions (init/test/update, those that are present) as
a list followed by the body; every node that the engine reads a source line
from carries its `line`. -/
inductive JSNode where
  | program (body : List JSNode)
  | forStmt (line : Nat) (head : List JSNode) (body : JSNode)
  | whileStmt (line : Nat) (test : JSNode) (body : JSNode)
  | doWhileStmt (line : Nat) (body : JSNode) (test : JSNode)
  | blockStmt (body : List JSNode)
  | exprStmt (e : JSNode)
  | callMember (line : Nat) (obj : JSNode) (prop : String) (args : List JSNode)
  | callIdent (line : Nat) (name : String) (args : List JSNode)
  | ident (name : String)
  | strLit (value : String)
  | importDecl (source : String) (specifiers : List String)
  | funcDecl (line : Nat) (name : String) (body : List JSNode)

/-- One reported issue, as pushed by the detectors.  The source field
`type` is called `ftype` here because `type` is reserved in Lean. -/
structure Finding where
  ftype : String
  severity : String
  line : Nat
  message : String
  suggestion : String
deriving DecidableEq, Repr

/-- One heavy-import record pushed by `analyzeBundleImpact`. -/
structure HeavyImport where
  library : String
  estimatedSize : String
  alternative : String
deriving DecidableEq, Repr

/-- One recorded import (source path and local specifier names; the two
derived booleans `isDefaultImport`/`isNamespaceImport` are omitted as no
consumer reads them). -/
structure ImportInfo where
  source : String
  specifiers : List String
deriving DecidableEq, Repr

/-- Result shape of `analyzeBundleImpact`; `error` records the message of a
caught parse failure. -/
structure BundleImpact where
  imports : List ImportInfo
  heavyImports : List HeavyImport
  error : Option String
deriving DecidableEq, Repr

/-- The fixed heavy-library table of `isHeavyLibrary`. -/
def heavyLibs : List String :=
  ["lodash", "moment", "axios", "jquery", "bootstrap",
   "material-ui", "antd", "react-router-dom"]

/-- Models `isHeavyLibrary`: substring match against the fixed table. -/
def isHeavyLibrary (source : String) : Bool :=
  heavyLibs.any (fun lib => strContains source lib)

/-- The size table of `getLibrarySize`, in object-literal insertion order. -/
def librarySizes : List (String × String) :=
  [("lodash", "70KB"), ("moment", "67KB"), ("jquery", "87KB"),
   ("bootstrap", "158KB"), ("material-ui", "300KB+"), ("antd", "500KB+")]

/-- First-match lookup by substring containment over an association table,
returning `dflt` when no key is contained in `source`; models the
`for (const [lib, v] of Object.entries(tbl)) if (source.includes(lib))`
loops of `getLibrarySize` and `suggestAlternative`. -/
def lookupByIncludes : List (String × String) → String → String → String
  | [], _, dflt => dflt
  | (lib, v) :: rest, source, dflt =>
      if strContains source lib then v else lookupByIncludes rest source dflt

/-- Models `getLibrarySize`. -/
def getLibrarySize (source : String) : String :=
  lookupByIncludes librarySizes source "Unknown"

/-- The alternative table of `suggestAlternative`, in insertion order. -/
def libraryAlternatives : List (String × String) :=
  [("lodash", "Use native ES6 methods or lodash-es for tree shaking"),
   ("moment", "Use date-fns or dayjs (2KB vs 67KB)"),
   ("jquery", "Use vanilla JavaScript or modern alternatives"),
   ("bootstrap", "Use Tailwind CSS or CSS Modules"),
   ("material-ui", "Use Mantine or Chakra UI (lighter alternatives)"),
   ("antd", "Use individual component imports")]

/-- Models `suggestAlternative`. -/
def suggestAlternative (source : String) : String :=
  lookupByIncludes libraryAlternatives source "Consider lighter alternatives"

/-- Traversal context handed to a visitor for one node: `parent` is the
parent node (Babel's `path.parent`), `ancestors` the whole ancestor chain
(nearest first), and `scope` the block of the enclosing lexical scope
(Babel's `path.scope.block`: the nearest enclosing function declaration,
or the whole program). -/
structure VisitCtx where
  parent : Option JSNode
  ancestors : List JSNode
  scope : JSNode

/-- Context for the children of a non-scope-introducing node `n`. -/
def VisitCtx.push (ctx : VisitCtx) (n : JSNode) : VisitCtx :=
  ⟨some n, n :: ctx.ancestors, ctx.scope⟩

/-- Context for the children of a function declaration `n`, which starts a
new lexical scope whose block is `n` itself. -/
def VisitCtx.pushScope (ctx : VisitCtx) (n : JSNode) : VisitCtx :=
  ⟨some n, n :: ctx.ancestors, n⟩

mutual
/-- Depth-first pre-order enumeration of a subtree, each node paired with
its traversal context; models the visitation order of `traverse`
(a visitor fires on a node before its descendants are visited). -/
def collectNodes : VisitCtx → JSNode → List (VisitCtx × JSNode)
  | ctx, .program body =>
      (ctx, .program body) :: collectList (ctx.push (.program body)) body
  | ctx, .forStmt l h b =>
      (ctx, .forStmt l h b) ::
        (collectList (ctx.push (.forStmt l h b)) h ++
         collectNodes (ctx.push (.forStmt l h b)) b)
  | ctx, .whileStmt l t b =>
      (ctx, .whileStmt l t b) ::
        (collectNodes (ctx.push (.whileStmt l t b)) t ++
         collectNodes (ctx.push (.whileStmt l t b)) b)
  | ctx, .doWhileStmt l b t =>
      (ctx, .doWhileStmt l b t) ::
        (collectNodes (ctx.push (.doWhileStmt l b t)) b ++
         collectNodes (ctx.push (.doWhileStmt l b t)) t)
  | ctx, .blockStmt body =>
      (ctx, .blockStmt body) :: collectList (ctx.push (.blockStmt body)) body
  | ctx, .exprStmt e =>
      (ctx, .exprStmt e) :: collectNodes (ctx.push (.exprStmt e)) e
  | ctx, .callMember l o p a =>
      (ctx, .callMember l o p a) ::
        (collectNodes (ctx.push (.callMember l o p a)) o ++
         collectList (ctx.push (.callMember l o p a)) a)
  | ctx, .callIdent l n a =>
      (ctx, .callIdent l n a) :: collectList (ctx.push (.callIdent l n a)) a
  | ctx, .ident n => [(ctx, .ident n)]
  | ctx, .strLit v => [(ctx, .strLit v)]
  | ctx, .importDecl s sp => [(ctx, .importDecl s sp)]
  | ctx, .funcDecl l nm body =>
      (ctx, .funcDecl l nm body) ::
        collectList (ctx.pushScope (.funcDecl l nm body)) body

/-- Pre-order enumeration of a forest (helper for `collectNodes`). -/
def collectList : VisitCtx → List JSNode → List (VisitCtx × JSNode)
  | _, [] => []
  | ctx, n :: ns => collectNodes ctx n ++ collectList ctx ns
end

/-- Root context of a traversal that starts at `root` (top level: no
parent, no ancestors, the program itself is the scope block). -/
def rootCtx (root : JSNode) : VisitCtx :=
  ⟨none, [], root⟩

/-- All nodes of a subtree in visitation order, the root first. -/
def nodesIn (root : JSNode) : List JSNode :=
  (collectNodes (rootCtx root) root).map Prod.snd

/-- Loop-statement test (`ForStatement|WhileStatement|DoWhileStatement`). -/
def isLoopNode : JSNode → Bool
  | .forStmt .. => true
  | .whileStmt .. => true
  | .doWhileStmt .. => true
  | _ => false

/-- `ForStatement` test (the only loop kind the nested-loop visitor is
registered for). -/
def isForNode : JSNode → Bool
  | .forStmt .. => true
  | _ => false

/-- Call-expression test: the node kinds on which a `CallExpression`
visitor fires. -/
def isCallNode : JSNode → Bool
  | .callMember .. => true
  | .callIdent .. => true
  | _ => false

/-- Source line of a node (`node.loc?.start.line`; 0 for nodes the model
gives no location). -/
def lineOf : JSNode → Nat
  | .forStmt l .. => l
  | .whileStmt l .. => l
  | .doWhileStmt l .. => l
  | .callMember l .. => l
  | .callIdent l .. => l
  | .funcDecl l .. => l
  | _ => 0

/-- Models `hasNestedLoop`: `path.traverse` visits the strict descendants
of the loop node (never the root itself, so the `innerPath !== path` guard
is always satisfied), and the flag is set when any of them is a loop. -/
def hasNestedLoop (n : JSNode) : Bool :=
  ((nodesIn n).drop 1).any isLoopNode

/-- The chain-method name table of `isArrayMethodChain`. -/
def chainMethods : List String :=
  ["map", "filter", "reduce", "forEach", "find", "some", "every"]

/-- Models `isArrayMethodChain`: a call whose callee is a member access
with a property name in the fixed table. -/
def isArrayMethodChain : JSNode → Bool
  | .callMember _ _ prop _ => chainMethods.contains prop
  | _ => false

/-- Models `getChainLength`: counts member-callee call links, repeatedly
unwrapping the callee's object expression while that object is itself a
call expression. -/
def getChainLength : JSNode → Nat
  | .callMember _ obj _ _ =>
      match obj with
      | .callMember l o p a => 1 + getChainLength (.callMember l o p a)
      | .callIdent l n a => 1 + getChainLength (.callIdent l n a)
      | _ => 1
  | _ => 0

/-- The DOM-method name table of `isDOMManipulation`. -/
def domMethods : List String :=
  ["querySelector", "getElementById", "appendChild",
   "innerHTML", "createElement", "setAttribute"]

/-- Models `isDOMManipulation`: a call whose member-callee property name or
identifier-callee name is in the fixed DOM table. -/
def isDOMManipulation : JSNode → Bool
  | .callMember _ _ prop _ => domMethods.contains prop
  | .callIdent _ name _ => domMethods.contains name
  | _ => false

/-- Models the `isInLoop` helper method as written: the walk starts at
`path.parent` (the parent node) and then follows `parent.parent`; Babel
AST nodes carry no `parent` field, so the second step reads `undefined`
and the loop stops — only the immediate parent node would ever be tested.
At runtime the method is never reached: its caller dereferences the
undefined `this` and throws first. -/
def isInLoop (ctx : VisitCtx) : Bool :=
  match ctx.parent with
  | some p => isLoopNode p
  | none => false

/-- The nested-loop finding object constructed at source lines 111-117
(the push site is unreachable at runtime, see `detectBottlenecksRun`). -/
def nestedLoopFinding (line : Nat) : Finding :=
  ⟨"nested-loop", "high", line, "Nested loops detected - O(n²) complexity",
   "Consider using Map/Set for lookups or optimize algorithm"⟩

/-- The DOM-in-loop finding object constructed at source lines 140-146
(the push site is unreachable at runtime, see `detectBottlenecksRun`). -/
def domInLoopFinding (line : Nat) : Finding :=
  ⟨"dom-in-loop", "high", line, "DOM manipulation inside loop",
   "Batch DOM updates outside the loop"⟩

/-- The long-chain finding object constructed at source lines 126-132
(the push site is unreachable at runtime: it sits in the first of two
duplicate `CallExpression` visitor keys, and even the surviving visitor
throws on the undefined `this`). -/
def arrayChainFinding (line chainLength : Nat) : Finding :=
  ⟨"array-chain", "medium", line,
   "Long array method chain (" ++ toString chainLength ++ " methods)",
   "Consider combining operations or using for-loop for better performance"⟩

/-- Stands for the message of the `TypeError` raised when a visitor
dereferences `this` while it is `undefined`; the exact runtime message
text is abstracted to the error name. -/
def typeErrorMsg : String := "TypeError"

/-- True for the nodes on which a visitor installed by `detectBottlenecks`
fires.  The visitor object literal binds `ForStatement` and — twice —
`CallExpression` (array-chain at lines 122-135, DOM-in-loop at lines
138-148; object-literal semantics keeps only the last duplicate), so a
visitor fires on every `for` statement and every call expression. -/
def bottleneckVisitorFires (n : JSNode) : Bool :=
  isForNode n || isCallNode n

/-- Models the traversal performed inside the `try` of
`detectBottlenecks`.  `traverse(ast, visitor)` is called with no state
argument, and Babel invokes each visitor as `fn.call(state, path, state)`,
so `this` is `undefined` inside the visitor bodies: the first fired
visitor throws a `TypeError` at its opening `this.hasNestedLoop` /
`this.isDOMManipulation` call, before any finding can be pushed.  A tree
on which no visitor fires completes with the still-empty `bottlenecks`
array. -/
def detectBottlenecksRun (prog : JSNode) : Except String (List Finding) :=
  if (nodesIn prog).any bottleneckVisitorFires then .error typeErrorMsg
  else .ok []

/-- Models `detectBottlenecks` on a successfully parsed tree: the
visitor's `TypeError` is caught and yields `[]`, and a traversal that
completes has pushed nothing — the detector can never emit a finding. -/
def detectBottlenecksAst (prog : JSNode) : List Finding :=
  match detectBottlenecksRun prog with
  | .error _ => []
  | .ok bottlenecks => bottlenecks

/-- Models `detectBottlenecks`: any parse error is caught and yields `[]`. -/
def detectBottlenecks (parsed : Except String JSNode) : List Finding :=
  match parsed with
  | .error _ => []
  | .ok ast => detectBottlenecksAst ast

/-- Models `isEventListener`: a call whose member-callee property name is
`addEventListener`. -/
def isEventListenerCall : JSNode → Bool
  | .callMember _ _ prop _ => prop = "addEventListener"
  | _ => false

/-- Member call with property `removeEventListener` (the cleanup call
searched for by `hasEventCleanup`). -/
def isRemoveListenerCall : JSNode → Bool
  | .callMember _ _ prop _ => prop = "removeEventListener"
  | _ => false

/-- The timer-scheduling name table of `isTimer`. -/
def timerMethods : List String :=
  ["setTimeout", "setInterval", "requestAnimationFrame"]

/-- Models `isTimer`: a call whose identifier callee is in the table. -/
def isTimerCall : JSNode → Bool
  | .callIdent _ name _ => timerMethods.contains name
  | _ => false

/-- The timer-cleanup name table of `hasTimerCleanup`. -/
def clearMethods : List String :=
  ["clearTimeout", "clearInterval", "cancelAnimationFrame"]

/-- Identifier call to one of the timer-cleanup functions. -/
def isClearTimerCall : JSNode → Bool
  | .callIdent _ name _ => clearMethods.contains name
  | _ => false

/-- Models `hasEventCleanup`: `scope.traverse(scope.block, ...)` scans the
whole subtree of the enclosing scope block for a `removeEventListener`
member call. -/
def hasEventCleanup (scope : JSNode) : Bool :=
  (nodesIn scope).any isRemoveListenerCall

/-- Models `hasTimerCleanup`: scans the enclosing scope block for a
`clearTimeout`/`clearInterval`/`cancelAnimationFrame` call. -/
def hasTimerCleanup (scope : JSNode) : Bool :=
  (nodesIn scope).any isClearTimerCall

/-- The event-listener finding object constructed at source lines 173-179
(doubly unreachable at runtime: it sits in the first of two duplicate
`CallExpression` visitor keys, and even the surviving visitor throws on
the undefined `this`). -/
def eventListenerFinding (line : Nat) : Finding :=
  ⟨"event-listener", "medium", line, "Event listener without cleanup",
   "Add removeEventListener in cleanup function"⟩

/-- The timer finding object constructed at source lines 189-195 (the
push site is unreachable at runtime, see `detectMemoryLeaksRun`). -/
def timerFinding (line : Nat) : Finding :=
  ⟨"timer", "medium", line, "Timer without cleanup",
   "Store timer ID and clear in cleanup"⟩

/-- True for the nodes on which a visitor installed by
`detectMemoryLeaks` fires.  The visitor object literal binds the key
`CallExpression` twice (event listeners at lines 169-182, timers at lines
185-198); only the last duplicate — the timer visitor — is installed, so
a visitor fires on every call expression. -/
def leakVisitorFires (n : JSNode) : Bool :=
  isCallNode n

/-- Models the traversal performed inside the `try` of
`detectMemoryLeaks`: `traverse` receives no state, so `this` is
`undefined` inside the installed visitor, whose opening `this.isTimer`
call throws a `TypeError` at the first call expression; a tree with no
call expression completes with the still-empty `leaks` array. -/
def detectMemoryLeaksRun (prog : JSNode) : Except String (List Finding) :=
  if (nodesIn prog).any leakVisitorFires then .error typeErrorMsg
  else .ok []

/-- Models `detectMemoryLeaks` on a successfully parsed tree: the
visitor's `TypeError` is caught and yields `[]`, and a traversal that
completes has pushed nothing — the detector can never emit a finding. -/
def detectMemoryLeaksAst (prog : JSNode) : List Finding :=
  match detectMemoryLeaksRun prog with
  | .error _ => []
  | .ok leaks => leaks

/-- Models `detectMemoryLeaks`: any parse error is caught and yields `[]`. -/
def detectMemoryLeaks (parsed : Except String JSNode) : List Finding :=
  match parsed with
  | .error _ => []
  | .ok ast => detectMemoryLeaksAst ast

/-- True for the nodes on which the `ImportDeclaration` visitor of
`analyzeBundleImpact` fires. -/
def importVisitorFires : JSNode → Bool
  | .importDecl .. => true
  | _ => false

/-- Models `analyzeBundleImpact` on a successfully parsed tree.  The
visitor body first pushes the import record (this step uses only
module-level bindings) and then calls `this.isHeavyLibrary` — but
`traverse` receives no state, so `this` is `undefined` and the call
throws a `TypeError` at the first import declaration.  The `catch`
returns fresh empty `imports`/`heavyImports` arrays with the error
message, discarding the partially-filled list; a tree with no import
declaration completes and returns its still-empty arrays without error.
Neither list is ever populated. -/
def analyzeBundleImpactAst (prog : JSNode) : BundleImpact :=
  if (nodesIn prog).any importVisitorFires then ⟨[], [], some typeErrorMsg⟩
  else ⟨[], [], none⟩

/-- Models `analyzeBundleImpact`: a parse error is caught and yields empty
lists with the error message recorded. -/
def analyzeBundleImpact (parsed : Except String JSNode) : BundleImpact :=
  match parsed with
  | .error msg => ⟨[], [], some msg⟩
  | .ok ast => analyzeBundleImpactAst ast

/-- Models `calculatePerformanceScore`: start at 100; subtract 15/8/3 per
bottleneck of severity high/medium/other, 12/6/2 per leak of severity
high/medium/other, and 5 per heavy import; clamp with
`Math.max(0, Math.min(100, score))`.  All arithmetic is on `Int`, matching
the integral JavaScript number arithmetic of the source. -/
def calculatePerformanceScore (bottlenecks memoryLeaks : List Finding)
    (heavyImports : List HeavyImport) : Int :=
  let s1 : Int := bottlenecks.foldl
    (fun s b =>
      if b.severity = "high" then s - 15
      else if b.severity = "medium" then s - 8
      else s - 3) 100
  let s2 : Int := memoryLeaks.foldl
    (fun s l =>
      if l.severity = "high" then s - 12
      else if l.severity = "medium" then s - 6
      else s - 2) s1
  let s3 : Int := s2 - heavyImports.length * 5
  max 0 (min 100 s3)

/-- Result shape of `analyzeReactComponent`; the issue and recommendation
payloads are modelled opaquely since no consumer reads their fields. -/
structure ReactAnalysis where
  issues : List String
  recommendations : List String
  error : Option String
deriving DecidableEq, Repr

/-- True for the nodes on which a visitor installed by
`analyzeReactComponent` fires: the visitor object binds
`FunctionDeclaration`, `CallExpression` and `JSXElement`, and each body
opens by dereferencing the undefined `this` (`this.isReactComponent`,
`this.isHook`, `this.checkJSXOptimizations`), so every function
declaration and every call expression triggers the `TypeError` (JSX
elements do not occur in this tree model). -/
def reactVisitorTrigger : JSNode → Bool
  | .funcDecl .. => true
  | .callMember .. => true
  | .callIdent .. => true
  | _ => false

/-- Models `analyzeReactComponent`.  A parse error is caught and recorded.
On a parsed tree, the first fired visitor throws a `TypeError` on the
undefined `this`, which the surrounding catch converts into an error
result with empty lists; a tree on which no visitor fires completes with
empty lists and no error. -/
def analyzeReactComponent (parsed : Except String JSNode) : ReactAnalysis :=
  match parsed with
  | .error msg => ⟨[], [], some msg⟩
  | .ok ast =>
      if (nodesIn ast).any reactVisitorTrigger then
        ⟨[], [], some typeErrorMsg⟩
      else ⟨[], [], none⟩

/-- Result shape of `analyzeCode` (the fields of the `results` object that
later stages read: the react sub-result is `none` for files the react gate
skips). -/
structure AnalysisResults where
  react : Option ReactAnalysis
  bundleImpact : BundleImpact
  bottlenecks : List Finding
  memoryLeaks : List Finding
  performanceScore : Int
deriving DecidableEq, Repr

/-- The extensions for which `analyzeCode` always runs the react analysis. -/
def reactExts : List String := [".jsx", ".tsx"]

/-- Models `analyzeCode`: the react analysis runs for `.jsx`/`.tsx` files
or when the text contains `React`; bundle impact, bottlenecks and memory
leaks always run; the overall score is computed from the three finding
collections.  The source re-parses the same text inside every
sub-analysis, so all of them receive the same parse outcome `parsed`. -/
def analyzeCode (ext : String) (code : String)
    (parsed : Except String JSNode) : AnalysisResults :=
  let react :=
    if reactExts.contains ext || strContains code "React" then
      some (analyzeReactComponent parsed)
    else none
  let bundle := analyzeBundleImpact parsed
  let bott := detectBottlenecks parsed
  let leaks := detectMemoryLeaks parsed
  { react := react
    bundleImpact := bundle
    bottlenecks := bott
    memoryLeaks := leaks
    performanceScore := calculatePerformanceScore bott leaks bundle.heavyImports }

/-- The traditional (non-AST) metrics of `getTraditionalAnalysis`. -/
structure TraditionalAnalysis where
  lines : Nat
  chars : Nat
  functions : Nat
  loops : Nat
  imports : Nat
  complexity : Nat
  todos : Nat
  duplicatedCode : Nat
deriving DecidableEq, Repr

/-- Models the `functions` regex count
(`function\s+\w+ | const\s+\w+\s*=\s*\( | =>\s*\x7b`), with each
whitespace class fixed to its one-space form. -/
def countFunctions (content : String) : Nat :=
  countSeg content "function " + countSeg content "const " +
    countSeg content "=> \x7b"

/-- Models the `loops` regex count
(`for\s*\( | while\s*\( | forEach\( | map\( | filter\(`), with `\s*`
fixed to one space. -/
def countLoops (content : String) : Nat :=
  countSeg content "for (" + countSeg content "while (" +
    countSeg content "forEach(" + countSeg content "map(" +
    countSeg content "filter("

/-- Models the `imports` regex count (`import\s+.*from | require\s*\(`),
approximated by the two leading keywords. -/
def countImports (content : String) : Nat :=
  countSeg content "import " + countSeg content "require("

/-- Models `calculateBasicComplexity`: 1 plus the number of matches of the
eight branching-keyword patterns, with `\s*` fixed to one space. -/
def calculateBasicComplexity (content : String) : Nat :=
  1 + (countSeg content "if (" + countSeg content "else" +
    countSeg content "for (" + countSeg content "while (" +
    countSeg content "switch (" + countSeg content "case " +
    countSeg content "catch (" + countSeg content "? :")

/-- Models the `todos` regex count (`/TODO|FIXME|XXX/gi`); the source
markers are upper-case, so the case-insensitive flag is modelled by also
counting the lower-case forms. -/
def countTodos (content : String) : Nat :=
  countSeg content "TODO" + countSeg content "todo" +
    countSeg content "FIXME" + countSeg content "fixme" +
    countSeg content "XXX" + countSeg content "xxx"

/-- Models `detectDuplicatedCode`: keep the lines whose trimmed length
exceeds 10, normalise whitespace, and count every line whose normalised
form was already seen (the accumulator pairs the seen forms with the
running count). -/
def detectDuplicatedCode (content : String) : Nat :=
  let ls := (splitLines content).filter (fun l => (trimChars l.toList).length > 10)
  (ls.foldl
    (fun (acc : List String × Nat) l =>
      let n := normalizeLine l
      if acc.1.contains n then (acc.1, acc.2 + 1) else (n :: acc.1, acc.2))
    ([], 0)).2

/-- Models `getTraditionalAnalysis`: `null` for empty content (the falsy
`!content` guard), otherwise the metric record computed from the raw text
alone. -/
def getTraditionalAnalysis (content : String) : Option TraditionalAnalysis :=
  if content = "" then none
  else some
    { lines := (splitLines content).length
      chars := content.length
      functions := countFunctions content
      loops := countLoops content
      imports := countImports content
      complexity := calculateBasicComplexity content
      todos := countTodos content
      duplicatedCode := detectDuplicatedCode content }

/-- The per-file report fields of `analyzeFile` that the claims concern. -/
structure FileAnalysis where
  advanced : Option AnalysisResults
  traditionalAnalysis : Option TraditionalAnalysis
  performanceScore : Int
deriving DecidableEq, Repr

/-- The extension allowlist of `analyzeFile` for reading file content. -/
def scriptExts : List String :=
  [".js", ".ts", ".jsx", ".tsx", ".vue", ".svelte"]

/-- Models `calculateOverallScore`: an advanced result always carries a
`performanceScore`, which is returned as is; otherwise the fallback
scoring from size and traditional metrics applies (default thresholds
`fileSize = 100000`, `functions = 20`). -/
def calculateOverallScore (adv : Option AnalysisResults) (size : Nat)
    (trad : Option TraditionalAnalysis) : Int :=
  match adv with
  | some a => a.performanceScore
  | none =>
      let s1 : Int := if size > 100000 then 100 - 10 else 100
      let s2 : Int :=
        match trad with
        | none => s1
        | some t =>
            let a := if t.complexity > 15 then s1 - 20 else s1
            let b := if t.functions > 20 then a - 10 else a
            if t.duplicatedCode > 5 then b - 15 else b
      max 0 (min 100 s2)

/-- Models the per-file analysis path of `analyzeFile` once the file has
been read: for a script extension the content is used and, when the
performance analysis is enabled (the default), the advanced analyzer runs
on it; for other extensions the content stays empty and no advanced
analysis is attached.  Traditional metrics are computed from the raw text
regardless of the parse outcome.  Every branch returns a report: nothing
in this path can throw, since every sub-analysis catches its own
failures. -/
def analyzeFile (ext : String) (content : String)
    (parsed : Except String JSNode) (size : Nat) (perfEnabled : Bool) :
    FileAnalysis :=
  let isScript := scriptExts.contains ext
  let contentUsed := if isScript then content else ""
  let advanced :=
    if isScript && perfEnabled then some (analyzeCode ext contentUsed parsed)
    else none
  let trad := getTraditionalAnalysis contentUsed
  { advanced := advanced
    traditionalAnalysis := trad
    performanceScore := calculateOverallScore advanced size trad }

/-- The fields of `generateUltimateSummary` that the grade claims concern. -/
structure UltimateSummary where
  totalFiles : Nat
  averageScore : Int
  grade : String
deriving DecidableEq, Repr

/-- Models `Math.round(totalScore / totalFiles)` for a nonnegative total:
`Math.round x = ⌊x + 1/2⌋`, and for nonnegative operands the integer
division below is exactly that floor. -/
def jsRoundMean (total : Int) (n : Nat) : Int :=
  (2 * total + n) / (2 * n)

/-- Models `generateUltimateSummary` on the per-file scores accumulated by
`updateGlobalStats`: the average is the rounded mean (0 when no file was
analyzed) and the grade is assigned by the `if`/`else if` chain at source
lines 423-428. -/
def generateUltimateSummary (scores : List Int) : UltimateSummary :=
  let totalFiles := scores.length
  let averageScore :=
    if totalFiles > 0 then jsRoundMean scores.sum totalFiles else 0
  let grade :=
    if averageScore ≥ 90 then "A+"
    else if averageScore ≥ 80 then "A"
    else if averageScore ≥ 70 then "B"
    else if averageScore ≥ 60 then "C"
    else if averageScore ≥ 50 then "D"
    else "F"
  ⟨totalFiles, averageScore, grade⟩

/-- Modelled from the spec: the grade-band table of section 4.5
(`≥90→A+, ≥80→A, ≥70→B, ≥60→C, ≥50→D, else F`), stated independently of
the source for the refinement comparison in the grade claim. -/
def gradeBandsSpec (avg : Int) : String :=
  if avg ≥ 90 then "A+"
  else if avg ≥ 80 then "A"
  else if avg ≥ 70 then "B"
  else if avg ≥ 60 then "C"
  else if avg ≥ 50 then "D"
  else "F"

/-! Helper notions and lemmas for the score-model theorems. -/

/-- The severity-indexed bottleneck penalty applied by the first `forEach`
of `calculatePerformanceScore`. -/
def bottleneckPenalty (f : Finding) : Int :=
  if f.severity = "high" then 15 else if f.severity = "medium" then 8 else 3

/-- The severity-indexed leak penalty applied by the second `forEach` of
`calculatePerformanceScore`. -/
def leakPenalty (f : Finding) : Int :=
  if f.severity = "high" then 12 else if f.severity = "medium" then 6 else 2

/-- Number of findings of a list that carry the given severity. -/
def countSev (fs : List Finding) (sev : String) : Nat :=
  (fs.filter fun f => f.severity = sev).length

lemma countSev_cons (f : Finding) (fs : List Finding) (sev : String) :
    countSev (f :: fs) sev =
      (if f.severity = sev then 1 else 0) + countSev fs sev := by
  by_cases h : f.severity = sev <;>
    simp [countSev, List.filter_cons, h, Nat.add_comm]

lemma foldl_bottleneck (l : List Finding) (init : Int) :
    l.foldl (fun s b => if b.severity = "high" then s - 15
      else if b.severity = "medium" then s - 8 else s - 3) init
      = init - (l.map bottleneckPenalty).sum := by
  induction l generalizing init with
  | nil => simp
  | cons a t ih =>
      rw [List.foldl_cons, ih, List.map_cons, List.sum_cons]
      simp only [bottleneckPenalty]
      split_ifs <;> ring

lemma foldl_leak (l : List Finding) (init : Int) :
    l.foldl (fun s f => if f.severity = "high" then s - 12
      else if f.severity = "medium" then s - 6 else s - 2) init
      = init - (l.map leakPenalty).sum := by
  induction l generalizing init with
  | nil => simp
  | cons a t ih =>
      rw [List.foldl_cons, ih, List.map_cons, List.sum_cons]
      simp only [leakPenalty]
      split_ifs <;> ring

lemma calculatePerformanceScore_closed (bs ls : List Finding)
    (hi : List HeavyImport) :
    calculatePerformanceScore bs ls hi =
      max 0 (min 100 (100 - (bs.map bottleneckPenalty).sum
        - (ls.map leakPenalty).sum - (hi.length : Int) * 5)) := by
  simp only [calculatePerformanceScore]
  rw [foldl_leak, foldl_bottleneck]

lemma map_penalty_sum_counts (pen : Finding → Int) (vh vm vl : Int)
    (hpen : ∀ f : Finding,
      (f.severity = "high" → pen f = vh) ∧
      (f.severity = "medium" → pen f = vm) ∧
      (f.severity = "low" → pen f = vl))
    (fs : List Finding)
    (h : ∀ f ∈ fs,
      f.severity = "high" ∨ f.severity = "medium" ∨ f.severity = "low") :
    (fs.map pen).sum =
      vh * (countSev fs "high" : Int) + vm * (countSev fs "medium" : Int)
        + vl * (countSev fs "low" : Int) := by
  induction fs with
  | nil => simp [countSev]
  | cons a t ih =>
      have ha := h a (by simp)
      have ht : ∀ f ∈ t,
          f.severity = "high" ∨ f.severity = "medium" ∨ f.severity = "low" :=
        fun f hf => h f (by simp [hf])
      rw [List.map_cons, List.sum_cons, ih ht,
        countSev_cons, countSev_cons, countSev_cons]
      rcases ha with h1 | h1 | h1
      · rw [(hpen a).1 h1, h1, if_pos rfl,
          if_neg (by decide : ¬("high" : String) = "medium"),
          if_neg (by decide : ¬("high" : String) = "low")]
        push_cast
        ring
      · rw [(hpen a).2.1 h1, h1, if_pos rfl,
          if_neg (by decide : ¬("medium" : String) = "high"),
          if_neg (by decide : ¬("medium" : String) = "low")]
        push_cast
        ring
      · rw [(hpen a).2.2 h1, h1, if_pos rfl,
          if_neg (by decide : ¬("low" : String) = "high"),
          if_neg (by decide : ¬("low" : String) = "medium")]
        push_cast
        ring

/-- Claim C1: the score model is a pure function of the finding lists:
starting from 100 it subtracts 15/8/3 per bottleneck of severity
high/medium/low, 12/6/2 per memory leak of severity high/medium/low, and a
flat 5 per heavy import, then clamps to `[0, 100]`; the result is an
integer (the function is `Int`-valued) and satisfies `0 ≤ s ≤ 100`. -/
theorem score_model_c1 (bs ls : List Finding) (hi : List HeavyImport)
    (hb : ∀ f ∈ bs,
      f.severity = "high" ∨ f.severity = "medium" ∨ f.severity = "low")
    (hl : ∀ f ∈ ls,
      f.severity = "high" ∨ f.severity = "medium" ∨ f.severity = "low") :
    calculatePerformanceScore bs ls hi =
      max 0 (min 100 (100
        - (15 * (countSev bs "high" : Int) + 8 * (countSev bs "medium" : Int)
            + 3 * (countSev bs "low" : Int))
        - (12 * (countSev ls "high" : Int) + 6 * (countSev ls "medium" : Int)
            + 2 * (countSev ls "low" : Int))
        - 5 * (hi.length : Int)))
    ∧ 0 ≤ calculatePerformanceScore bs ls hi
    ∧ calculatePerformanceScore bs ls hi ≤ 100 := by
  have hB := map_penalty_sum_counts bottleneckPenalty 15 8 3
    (fun f => by
      refine ⟨fun h => ?_, fun h => ?_, fun h => ?_⟩ <;>
        simp [bottleneckPenalty, h]) bs hb
  have hL := map_penalty_sum_counts leakPenalty 12 6 2
    (fun f => by
      refine ⟨fun h => ?_, fun h => ?_, fun h => ?_⟩ <;>
        simp [leakPenalty, h]) ls hl
  rw [calculatePerformanceScore_closed, hB, hL]
  refine ⟨by ring_nf, ?_, ?_⟩ <;> omega

/-- Witness for C1 at a concrete input: one high bottleneck, one medium
leak and one heavy import give `max 0 (min 100 (100 - 15 - 6 - 5))`. -/
theorem score_model_c1_witness :
    calculatePerformanceScore [nestedLoopFinding 1] [timerFinding 2]
        [⟨"moment", "67KB", "Use date-fns or dayjs (2KB vs 67KB)"⟩] =
      max 0 (min 100 (100
        - (15 * (countSev [nestedLoopFinding 1] "high" : Int)
            + 8 * (countSev [nestedLoopFinding 1] "medium" : Int)
            + 3 * (countSev [nestedLoopFinding 1] "low" : Int))
        - (12 * (countSev [timerFinding 2] "high" : Int)
            + 6 * (countSev [timerFinding 2] "medium" : Int)
            + 2 * (countSev [timerFinding 2] "low" : Int))
        - 5 * (([⟨"moment", "67KB", "Use date-fns or dayjs (2KB vs 67KB)"⟩] :
            List HeavyImport).length : Int)))
    ∧ 0 ≤ calculatePerformanceScore [nestedLoopFinding 1] [timerFinding 2]
        [⟨"moment", "67KB", "Use date-fns or dayjs (2KB vs 67KB)"⟩]
    ∧ calculatePerformanceScore [nestedLoopFinding 1] [timerFinding 2]
        [⟨"moment", "67KB", "Use date-fns or dayjs (2KB vs 67KB)"⟩] ≤ 100 :=
  score_model_c1 [nestedLoopFinding 1] [timerFinding 2]
    [⟨"moment", "67KB", "Use date-fns or dayjs (2KB vs 67KB)"⟩]
    (by decide) (by decide)

/-- Claim C9: the score is invariant under any reordering of the
bottleneck list, the leak list and the heavy-import list (the penalty
accumulation only ever sums, over the integers). -/
theorem score_permutation_c9 (bs bs' ls ls' : List Finding)
    (hi hi' : List HeavyImport)
    (hb : bs.Perm bs') (hl : ls.Perm ls') (hh : hi.Perm hi') :
    calculatePerformanceScore bs ls hi =
      calculatePerformanceScore bs' ls' hi' := by
  rw [calculatePerformanceScore_closed, calculatePerformanceScore_closed,
    (hb.map bottleneckPenalty).sum_eq, (hl.map leakPenalty).sum_eq,
    hh.length_eq]

/-- Witness for C9 at a concrete input: swapping two bottleneck findings,
two leak findings and two heavy imports leaves the score unchanged. -/
theorem score_permutation_c9_witness :
    calculatePerformanceScore [nestedLoopFinding 1, domInLoopFinding 2]
        [timerFinding 3, timerFinding 4]
        [⟨"moment", "67KB", "d"⟩, ⟨"lodash", "70KB", "e"⟩] =
      calculatePerformanceScore [domInLoopFinding 2, nestedLoopFinding 1]
        [timerFinding 4, timerFinding 3]
        [⟨"lodash", "70KB", "e"⟩, ⟨"moment", "67KB", "d"⟩] :=
  score_permutation_c9 _ _ _ _ _ _
    (List.Perm.swap _ _ _) (List.Perm.swap _ _ _) (List.Perm.swap _ _ _)

/-! Concrete programs used to settle the detector claims. -/

/-- A source file consisting of one triply-nested `for` loop, the three
loops starting at lines `l1`, `l2`, `l3`. -/
def tripleNestProg (l1 l2 l3 : Nat) : JSNode :=
  .program [.forStmt l1 []
    (.blockStmt [.forStmt l2 []
      (.blockStmt [.forStmt l3 [] (.blockStmt [])])])]

/-- A source file whose only statement is
`element.addEventListener("click", handler)`, with no
`removeEventListener` anywhere in the enclosing (program) scope. -/
def eventListenerProg : JSNode :=
  .program [.exprStmt (.callMember 1 (.ident "element") "addEventListener"
    [.strLit "click", .ident "handler"])]

/-- The call `xs.map(f).filter(g).map(h).filter(k)`: a method-call chain
of measured length 4. -/
def methodChainCall : JSNode :=
  .callMember 1
    (.callMember 1
      (.callMember 1
        (.callMember 1 (.ident "xs") "map" [.ident "f"])
        "filter" [.ident "g"])
      "map" [.ident "h"])
    "filter" [.ident "k"]

/-- A source file whose only statement is the length-4 method chain. -/
def methodChainProg : JSNode :=
  .program [.exprStmt methodChainCall]

/-- `for (;;) document.getElementById("x");` — the DOM call is a loop-body
statement, so its parent node is the expression statement, not the loop. -/
def domLoopBodyProg : JSNode :=
  .program [.forStmt 1 []
    (.exprStmt (.callMember 2 (.ident "document") "getElementById"
      [.strLit "x"]))]

/-- `for (;; document.getElementById("x")) {}` — the DOM call sits in the
loop header, so its parent node is the `for` statement itself. -/
def domLoopHeadProg : JSNode :=
  .program [.forStmt 1
    [.callMember 1 (.ident "document") "getElementById" [.strLit "x"]]
    (.blockStmt [])]

/-- Claim C2, evaluated on the code at the failing input: a file
consisting of a triply-nested `for` loop receives no `NestedLoop` finding
at all — the `ForStatement` visitor throws a `TypeError` on the undefined
`this` at the outermost loop, and the catch in `detectBottlenecks`
returns `[]` — where the claim asserts exactly one finding. -/
theorem nested_loop_inert_c2 (l1 l2 l3 : Nat) :
    detectBottlenecksAst (tripleNestProg l1 l2 l3) = [] := rfl

/-- Claim C3, evaluated on the code at the failing input: a scope with an
`addEventListener` member call and no `removeEventListener` receives no
finding at all from `detectMemoryLeaks` — the installed `CallExpression`
visitor (the timer handler, the event-listener handler having been
shadowed by the duplicate key) throws a `TypeError` on the undefined
`this` at the first call, and the catch returns `[]` — where the claim
asserts exactly one medium `EventListenerLeak` finding. -/
theorem event_listener_inert_c3 :
    detectMemoryLeaksAst eventListenerProg = [] := rfl

/-- Claim C4, evaluated on the code at the failing input: the method-call
chain has measured length 4 (> 3, per the `getChainLength` helper the
claim describes), yet `detectBottlenecks` emits no finding — the
array-chain handler sits in the first of two duplicate `CallExpression`
keys and is never installed, and the surviving visitor throws a
`TypeError` on the undefined `this` at the first call anyway — where the
claim asserts a medium `LongChain` finding carrying the measured
length. -/
theorem array_chain_inert_c4 :
    getChainLength methodChainCall = 4 ∧
    detectBottlenecksAst methodChainProg = [] :=
  ⟨rfl, rfl⟩

/-- Claim C5, evaluated on the code at the failing input: a DOM-table
call emits no `DomInLoop` finding in any position — with the call in the
loop body and even with the call directly under the loop node — because
the `CallExpression` visitor throws a `TypeError` on the undefined `this`
at `this.isDOMManipulation`, before `isInLoop` (itself reduced to an
immediate-parent check by the nonexistent `node.parent` field) could ever
run; the claim asserts a high finding for every DOM call with a loop
ancestor. -/
theorem dom_in_loop_inert_c5 :
    detectBottlenecksAst domLoopBodyProg = [] ∧
    detectBottlenecksAst domLoopHeadProg = [] :=
  ⟨rfl, rfl⟩

/-- Claim C6: the project grade is the fixed band function
(`≥90→A+, ≥80→A, ≥70→B, ≥60→C, ≥50→D, else F`) of the rounded arithmetic
mean of the per-file scores; in particular a rounded average of 85 grades
`A`, 55 grades `D` and 40 grades `F`. -/
theorem grade_mapping_c6 :
    (∀ scores : List Int, (generateUltimateSummary scores).grade =
      gradeBandsSpec ((generateUltimateSummary scores).averageScore)) ∧
    (generateUltimateSummary [100, 70]).averageScore = 85 ∧
    (generateUltimateSummary [100, 70]).grade = "A" ∧
    (generateUltimateSummary [55]).averageScore = 55 ∧
    (generateUltimateSummary [55]).grade = "D" ∧
    (generateUltimateSummary [40]).averageScore = 40 ∧
    (generateUltimateSummary [40]).grade = "F" := by
  refine ⟨fun scores => rfl, ?_, ?_, ?_, ?_, ?_, ?_⟩ <;> decide

/-- Claim C7, evaluated on the code at the failing input: an import of
`moment` is one the `isHeavyLibrary` table would classify, and the
`suggestAlternative` table would pair with the date-fns/dayjs text, yet
`analyzeBundleImpact` returns empty import and heavy-import lists with an
error — the `ImportDeclaration` visitor throws a `TypeError` at
`this.isHeavyLibrary` (the undefined `this`) and the catch discards
everything — where the claim asserts exactly one `HeavyImport` finding
with a date-library alternative. -/
theorem heavy_import_inert_c7 :
    isHeavyLibrary "moment" = true ∧
    suggestAlternative "moment" = "Use date-fns or dayjs (2KB vs 67KB)" ∧
    strContains "Use date-fns or dayjs (2KB vs 67KB)" "date-fns" = true ∧
    analyzeBundleImpactAst (.program [.importDecl "moment" ["moment"]]) =
      ⟨[], [], some typeErrorMsg⟩ := by
  decide

/-- Claim C10, evaluated on the code at the failing inputs: the
substring-based helper classification is as the claim describes — `axios`
and `react-router-dom` are classified heavy while absent from the
size/alternative tables, so the lookups yield `Unknown` and the generic
text — but the classification is never exercised: the import visitor
throws a `TypeError` on the undefined `this`, `analyzeBundleImpact`
returns empty lists with an error for the `axios` import, and the file
scores 100, with no `HeavyImport` finding and no 5-point penalty. -/
theorem heavy_axios_inert_c10 :
    isHeavyLibrary "axios" = true ∧
    isHeavyLibrary "react-router-dom" = true ∧
    getLibrarySize "axios" = "Unknown" ∧
    suggestAlternative "axios" = "Consider lighter alternatives" ∧
    getLibrarySize "react-router-dom" = "Unknown" ∧
    suggestAlternative "react-router-dom" = "Consider lighter alternatives" ∧
    analyzeBundleImpactAst (.program [.importDecl "axios" ["axios"]]) =
      ⟨[], [], some typeErrorMsg⟩ ∧
    (analyzeCode ".js" ""
      (.ok (.program [.importDecl "axios" ["axios"]]))).performanceScore =
      100 := by
  decide

lemma analyzeFile_js (content : String) (parsed : Except String JSNode)
    (size : Nat) :
    analyzeFile ".js" content parsed size true =
      { advanced := some (analyzeCode ".js" content parsed)
        traditionalAnalysis := getTraditionalAnalysis content
        performanceScore := (analyzeCode ".js" content parsed).performanceScore } :=
  rfl

/-- Claim C8 counterexample: on syntactically invalid source text the
report's `advanced` field is not absent — `analyzeCode` never throws, and
its degraded result (empty findings, the parse error recorded in the
bundle-impact sub-result) is attached to the report. -/
theorem parse_failure_advanced_present_c8_counterexample :
    (analyzeFile ".js" "for (" (.error "Unexpected token (1:5)") 5
      true).advanced ≠ none := by
  decide

/-- Claim C8 as amended: for any source text whose parse fails, the
per-file analysis still returns a report (the function is total — every
sub-analysis catches its own failure, so nothing propagates): the
traditional metrics are populated from the raw text exactly as they would
be for any successfully parsed tree of the same text, and the advanced
analysis is attached rather than marked absent, carrying empty
import/bottleneck/leak lists, the parse error recorded in the
bundle-impact sub-result, and a performance score of 100, which the file
report adopts. -/
theorem parse_failure_resilience_c8 (content msg : String) (p : JSNode)
    (size : Nat) (hc : content ≠ "") :
    (analyzeFile ".js" content (.error msg) size true).traditionalAnalysis =
      getTraditionalAnalysis content ∧
    (analyzeFile ".js" content (.error msg) size true).traditionalAnalysis ≠
      none ∧
    (analyzeFile ".js" content (.error msg) size true).traditionalAnalysis =
      (analyzeFile ".js" content (.ok p) size true).traditionalAnalysis ∧
    (∃ a, (analyzeFile ".js" content (.error msg) size true).advanced = some a ∧
      a.bundleImpact = ⟨[], [], some msg⟩ ∧
      a.bottlenecks = [] ∧ a.memoryLeaks = [] ∧ a.performanceScore = 100) ∧
    (analyzeFile ".js" content (.error msg) size true).performanceScore =
      100 := by
  refine ⟨by rw [analyzeFile_js], ?_, by rw [analyzeFile_js, analyzeFile_js],
    ⟨analyzeCode ".js" content (.error msg), by rw [analyzeFile_js], rfl, rfl,
      rfl, ?_⟩, ?_⟩
  · rw [analyzeFile_js]
    simp [getTraditionalAnalysis, hc]
  · show calculatePerformanceScore [] [] [] = 100
    decide
  · rw [analyzeFile_js]
    show calculatePerformanceScore [] [] [] = 100
    decide

/-- Witness for C8 at the concrete invalid text `for (`. -/
theorem parse_failure_resilience_c8_witness :
    (analyzeFile ".js" "for (" (.error "Unexpected token (1:5)") 5
        true).traditionalAnalysis = getTraditionalAnalysis "for (" ∧
    (analyzeFile ".js" "for (" (.error "Unexpected token (1:5)") 5
        true).traditionalAnalysis ≠ none ∧
    (analyzeFile ".js" "for (" (.error "Unexpected token (1:5)") 5
        true).traditionalAnalysis =
      (analyzeFile ".js" "for (" (.ok (.program [])) 5
        true).traditionalAnalysis ∧
    (∃ a, (analyzeFile ".js" "for (" (.error "Unexpected token (1:5)") 5
        true).advanced = some a ∧
      a.bundleImpact = ⟨[], [], some "Unexpected token (1:5)"⟩ ∧
      a.bottlenecks = [] ∧ a.memoryLeaks = [] ∧ a.performanceScore = 100) ∧
    (analyzeFile ".js" "for (" (.error "Unexpected token (1:5)") 5
        true).performanceScore = 100 :=
  parse_failure_resilience_c8 "for (" "Unexpected token (1:5)"
    (.program []) 5 (by decide)

end PerfWizard
